import Mathlib

/-!
Verification development for the elizaos knowledge plugin
(ingestion-and-retrieval pipeline: routes, actions, repositories, service).

Each definition is a shallow embedding of the corresponding source
function.  Machine floats of the route layer are modelled over `Rat`
(the handler only compares, clamps and defaults them), query parameters
that may be absent or unparseable (`NaN`) are modelled as `Option`.
Code of the repository that is not present under `src/` (the
`KnowledgeService`, the `FragmentRepository` implementation and
`utils.ts`) is modelled from the spec, as marked in doc comments.
-/

namespace KnowledgePlugin

/-! ## Search route: threshold / limit parsing (src/routes.ts lines 740-754)

`searchKnowledgeHandler` parses `req.query.threshold` with
`Number.parseFloat` (absent or `NaN` gives `NaN`), defaults to `0.5`,
then clamps with `Math.max(0, Math.min(1, _))`; the limit likewise with
default `20` and clamp `Math.max(1, Math.min(100, _))`.  The parsed
value is `none` when the parameter is absent or not a number. -/

/-- Embeds src/routes.ts lines 741-747: the effective `matchThreshold`. -/
def matchThreshold (parsed : Option Rat) : Rat :=
  let m0 : Rat := parsed.getD (1/2)
  max 0 (min 1 m0)

/-- Embeds src/routes.ts lines 750-754: the effective `limit`. -/
def searchLimit (parsed : Option Int) : Int :=
  let l0 : Int := parsed.getD 20
  max 1 (min 100 l0)

/-! ## Search route: control flow (src/routes.ts lines 731-789) -/

/-- A search request as seen by `searchKnowledgeHandler`: the query text
`q` (`none` models an absent parameter), the parsed threshold and the
parsed limit (`none` models absent or `NaN`). -/
structure SearchRequest where
  q : Option String
  threshold : Option Rat
  lim : Option Int
  deriving DecidableEq, Repr

/-- Outcome of the validation phase of `searchKnowledgeHandler`:
either the request is rejected with an HTTP status and error code
before any model call, or the handler proceeds to embed the query and
run the memory search with the clamped threshold and limit. -/
inductive SearchStep where
  | reject (status : Nat) (code : String)
  | exec (threshold : Rat) (lim : Int) (queryText : String)
  deriving DecidableEq, Repr

/-- Embeds src/routes.ts line 758: the guard
`!searchText || searchText.trim().length === 0` - the query is absent,
empty, or consists of whitespace only.  The trim-to-empty test is
embedded at the character level: the trimmed string is empty exactly
when every character is whitespace. -/
def blankQuery : Option String → Bool
  | none => true
  | some s => s.data.all (fun c => c.isWhitespace)

/-- Embeds src/routes.ts lines 737-789: `searchKnowledgeHandler` computes the
clamped threshold and limit, rejects an absent, empty or
whitespace-only query with `400 INVALID_QUERY` (before the embedding
model is consulted), and otherwise proceeds to the embedding call and
the memory search. -/
def searchKnowledgeHandler (req : SearchRequest) : SearchStep :=
  let t := matchThreshold req.threshold
  let l := searchLimit req.lim
  match req.q with
  | none => .reject 400 ("INVALID_QUERY")
  | some s =>
    if s.data.all (fun c => c.isWhitespace) then .reject 400 ("INVALID_QUERY")
    else .exec t l s

/-- Whether the handler reaches the `runtime.useModel(TEXT_EMBEDDING, _)`
call and the subsequent `runtime.searchMemories` call (src/routes.ts
lines 777-789): only the `exec` outcome does. -/
def invokesEmbedding : SearchStep → Bool
  | .reject _ _ => false
  | .exec _ _ _ => true

/-! ## Data model (src/types.ts)

`Document` and `KnowledgeFragment` follow the interfaces of
src/types.ts (timestamps and the open metadata mapping are omitted:
no claim mentions them).  Identifiers (`UUID` in the source) are
modelled as strings. -/

/-- Embeds src/types.ts `Document`: one stored knowledge document. -/
structure Document where
  id : String
  agentId : String
  worldId : String
  roomId : String
  entityId : String
  originalFilename : String
  contentType : String
  content : String
  fileSize : Nat
  deriving DecidableEq, Repr

/-- Embeds src/types.ts `KnowledgeFragment`: one chunk of a document with its
position (the embedding vector is irrelevant to the claims settled here
and is omitted). -/
structure KnowledgeFragment where
  id : String
  documentId : String
  agentId : String
  worldId : String
  roomId : String
  entityId : String
  content : String
  position : Nat
  deriving DecidableEq, Repr

/-- The persisted state: the documents table and the knowledge-fragments
table (src schema: `documentsTable`, `knowledgeFragmentsTable`). -/
structure KnowledgeState where
  documents : List Document
  fragments : List KnowledgeFragment
  deriving DecidableEq, Repr

/-- Embeds src/types.ts `AddKnowledgeOptions` (agentId made explicit; in the
source it defaults to `runtime.agentId` when absent). -/
structure AddKnowledgeOptions where
  agentId : String
  worldId : String
  roomId : String
  entityId : String
  clientDocumentId : String
  contentType : String
  originalFilename : String
  content : String
  deriving DecidableEq, Repr

/-- Result of `addKnowledge` as consumed by the callers in src
(`result.clientDocumentId`, `result.storedDocumentMemoryId`,
`result.fragmentCount`). -/
structure AddKnowledgeResult where
  clientDocumentId : String
  storedDocumentMemoryId : String
  fragmentCount : Nat
  deriving DecidableEq, Repr

/-- Modelled from the spec: `FragmentRepository.countByDocument`
(src/repositories/fragment-repository.ts is absent from the source
tree; only its unit tests are present).  Counts the fragment rows whose
`documentId` matches. -/
def countByDocument (s : KnowledgeState) (docId : String) : Nat :=
  (s.fragments.filter (fun f => f.documentId = docId)).length

/-- The fragment rows created for one document: chunk `i` of the
extracted text becomes the fragment at `position = i` (spec section 3:
positions are zero-based, contiguous `0..N-1`; scoping fields are
inherited from the owning document). -/
def mkFragments (opts : AddKnowledgeOptions) : List String → Nat → List KnowledgeFragment
  | [], _ => []
  | c :: rest, p =>
    { id := opts.clientDocumentId ++ "-" ++ toString p
      documentId := opts.clientDocumentId
      agentId := opts.agentId
      worldId := opts.worldId
      roomId := opts.roomId
      entityId := opts.entityId
      content := c
      position := p } :: mkFragments opts rest (p + 1)

/-- Modelled from the spec: `KnowledgeService.addKnowledge`
(src/service.ts is absent from the source tree; only its callers and
tests are present).  Spec section 4.1: computes the document identity
from `clientDocumentId`; if a document with that identity already
exists for the agent the call is idempotent - no new rows are written
and the existing identity and current fragment count are returned;
otherwise the extracted text is chunked (the chunker is passed in as
`chunk`, spec section 4.2: deterministic) and the document row plus all
fragment rows are persisted as one unit.  The stored document memory id
is represented by the document identity itself. -/
def addKnowledge (chunk : String → List String) (s : KnowledgeState)
    (opts : AddKnowledgeOptions) : KnowledgeState × AddKnowledgeResult :=
  if s.documents.any (fun d => d.id = opts.clientDocumentId && d.agentId = opts.agentId) then
    (s, { clientDocumentId := opts.clientDocumentId
          storedDocumentMemoryId := opts.clientDocumentId
          fragmentCount := countByDocument s opts.clientDocumentId })
  else
    let pieces := chunk opts.content
    let doc : Document :=
      { id := opts.clientDocumentId
        agentId := opts.agentId
        worldId := opts.worldId
        roomId := opts.roomId
        entityId := opts.entityId
        originalFilename := opts.originalFilename
        contentType := opts.contentType
        content := opts.content
        fileSize := opts.content.length }
    ({ documents := s.documents ++ [doc]
       fragments := s.fragments ++ mkFragments opts pieces 0 },
     { clientDocumentId := opts.clientDocumentId
       storedDocumentMemoryId := opts.clientDocumentId
       fragmentCount := pieces.length })

/-- Modelled from the spec: `FragmentRepository.findByDocument`
(implementation absent from the source tree): returns the fragment rows
of one document ordered by `position` ascending. -/
def findByDocument (s : KnowledgeState) (docId : String) : List KnowledgeFragment :=
  List.insertionSort (fun a b => a.position ≤ b.position)
    (s.fragments.filter (fun f => f.documentId = docId))

/-- Modelled from the spec: document deletion with cascading fragment
deletion (`KnowledgeService.deleteMemory`, src/service.ts absent from
the source tree).  Spec sections 4.1 and 7: deletes the document row
and all fragment rows referencing it; deleting a non-existent id is a
no-op success, not an error.  The `Bool` is the success signal (the
route answers 204 whenever no error is raised). -/
def deleteDocument (s : KnowledgeState) (docId : String) : KnowledgeState × Bool :=
  ({ documents := s.documents.filter (fun d => d.id ≠ docId)
     fragments := s.fragments.filter (fun f => f.documentId ≠ docId) }, true)

/-- Modelled from the spec: `FragmentRepository.createBatch`
(implementation absent from the source tree).  Its unit test
(src/unnamed/part_000, lines 110-135) pins the observable behaviour:
one `db.insert(knowledgeFragmentsTable).values(_).returning()` chain is
issued per call - the empty-batch test asserts that `insert` is called
even for an empty input - and the inserted rows are returned.  The
returned `Nat` counts the insert statements issued to the database. -/
def createBatch (s : KnowledgeState) (frags : List KnowledgeFragment) :
    KnowledgeState × List KnowledgeFragment × Nat :=
  ({ s with fragments := s.fragments ++ frags }, frags, 1)

/-- Insert statements issued by one `createBatch` call. -/
def createBatchInsertCount (s : KnowledgeState) (frags : List KnowledgeFragment) : Nat :=
  (createBatch s frags).2.2

/-! ## URL ingestion and identity derivation
(src/routes.ts lines 146-154 and 275-339, src/actions.ts lines 147-160
and 232-241) -/

/-- Modelled from the spec: `normalizeS3Url` (src/utils.ts is absent
from the source tree).  Spec section 6: "normalizes the source URL
(strips query parameters) for deduplication identity" - everything from
the first question mark on is dropped. -/
def normalizeS3Url (url : String) : String :=
  String.mk (url.data.takeWhile (fun c => c ≠ '?'))

/-- Embeds src/routes.ts lines 277-281: the knowledge id of a URL upload is
derived from the normalized URL.  `createUniqueUuid` of the external
runtime is a deterministic seed-to-UUID function and is abstracted as
`mkId`. -/
def urlKnowledgeId (mkId : String → String) (fileUrl : String) : String :=
  mkId (normalizeS3Url fileUrl)

/-- Embeds src/routes.ts lines 275-339: ingesting one URL builds
`AddKnowledgeOptions` with `clientDocumentId := urlKnowledgeId`,
`worldId = roomId = entityId = agentId`, and the fetched content, then
calls `service.addKnowledge`. -/
def urlIngest (chunk : String → List String) (mkId : String → String)
    (agentId : String) (s : KnowledgeState) (fileUrl : String)
    (contentType originalFilename content : String) :
    KnowledgeState × AddKnowledgeResult :=
  addKnowledge chunk s
    { agentId := agentId
      worldId := agentId
      roomId := agentId
      entityId := agentId
      clientDocumentId := urlKnowledgeId mkId fileUrl
      contentType := contentType
      originalFilename := originalFilename
      content := content }

/-- Embeds src/routes.ts line 154: when the client supplies no document id for
a file upload, the generated id seed is
`knowledge-${originalFilename}-${Date.now()}` - it embeds the current
timestamp. -/
def fileUploadSeed (originalFilename : String) (now : Nat) : String :=
  "knowledge-" ++ originalFilename ++ "-" ++ toString now

/-- Embeds src/routes.ts lines 151-154: the knowledge id of an uploaded file:
the per-file client id if present, else the request-level client id,
else `createUniqueUuid` (abstracted as `mkId`) of the timestamped
seed. -/
def fileUploadKnowledgeId (mkId : String → String)
    (documentIdAt : Option String) (documentId : Option String)
    (originalFilename : String) (now : Nat) : String :=
  match documentIdAt with
  | some d => d
  | none =>
    match documentId with
    | some d => d
    | none => mkId (fileUploadSeed originalFilename now)

/-- Embeds src/actions.ts lines 232-241 (`processKnowledgeAction`): the id
seed for a file ingested through the action is
`runtime.agentId + fileName + Date.now()` - it also embeds the current
timestamp. -/
def actionFileSeed (agentId fileName : String) (now : Nat) : String :=
  agentId ++ fileName ++ toString now

/-! ## Document retrieval routes (src/routes.ts lines 372-444 and 488-545)

The handlers work on `Memory` rows of the external runtime; the fields
used by the handlers are modelled (`embedding` is `Option`, `undefined`
being `none`; `metadata` stays an open mapping of string keys). -/

/-- The `Memory` shape handled by the document routes. -/
structure MemoryRow where
  id : String
  entityId : String
  roomId : String
  content : String
  metadata : List (String × String)
  embedding : Option (List Rat)
  createdAt : Nat
  deriving DecidableEq, Repr

/-- The spread `{ ...memory, embedding: undefined }` used by both
retrieval handlers: every field is kept except `embedding`, which is
set to `undefined`. -/
def stripEmbedding (m : MemoryRow) : MemoryRow :=
  { m with embedding := none }

/-- Embeds src/routes.ts lines 386 and 428-433 (`getKnowledgeDocumentsHandler`):
`includeEmbedding` is the query parameter compared with `=== true` as a
string; the handler returns the memories untouched exactly when the
parameter is the exact string `true`, and otherwise maps
`stripEmbedding` over them. -/
def cleanMemories (includeEmbedding : Option String) (ms : List MemoryRow) : List MemoryRow :=
  if includeEmbedding = some ("true") then ms else ms.map stripEmbedding

/-- Embeds src/routes.ts lines 534-538 (`getKnowledgeByIdHandler`): the found
document is always returned with `embedding: undefined`. -/
def cleanDocument (m : MemoryRow) : MemoryRow :=
  stripEmbedding m

/-! ## Search result enrichment (src/routes.ts lines 791-829) -/

/-- Metadata of a search-result fragment: the optional `documentId`
pointing at the parent document, plus the remaining open entries. -/
structure FragMeta where
  documentId : Option String
  rest : List (String × String)
  deriving DecidableEq, Repr

/-- One fragment as returned by `runtime.searchMemories`. -/
structure SearchFragment where
  id : String
  content : String
  similarity : Option Rat
  metadata : FragMeta
  deriving DecidableEq, Repr

/-- Metadata of a parent document memory (only `title` and `filename`
are read by the enrichment code). -/
structure DocMeta where
  title : Option String
  filename : Option String
  deriving DecidableEq, Repr

/-- A parent document memory as fetched by `runtime.getMemoryById`. -/
structure DocumentMemory where
  id : String
  metadata : Option DocMeta
  deriving DecidableEq, Repr

/-- One enriched search result (src/routes.ts lines 818-827): the
fragment plus `documentTitle` and `documentFilename` in its metadata. -/
structure EnhancedResult where
  id : String
  content : String
  similarity : Rat
  metadata : FragMeta
  documentTitle : String
  documentFilename : String
  deriving DecidableEq, Repr

/-- JavaScript `a || b` on optional strings: the default is taken when
the value is absent or the empty string (both falsy). -/
def jsOrString (o : Option String) (d : String) : String :=
  match o with
  | none => d
  | some s => if s = "" then d else s

/-- Embeds src/routes.ts lines 793-827: enrichment of one search result.
`documentTitle` starts as `Unknown Document` and `documentFilename` as
`unknown`; when the fragment metadata carries a `documentId` and the
parent document can be fetched and has metadata, they are replaced by
`metadata.title || metadata.filename || documentTitle` and
`metadata.filename || documentFilename`.  A parent that is missing or
whose fetch throws (the `catch` at line 813) leaves the placeholders;
`lookup` returning `none` models both.  `similarity` falls back to `0`
(`fragment.similarity || 0`). -/
def enhanceResult (lookup : String → Option DocumentMemory)
    (frag : SearchFragment) : EnhancedResult :=
  let dt0 := "Unknown Document"
  let df0 := "unknown"
  let base : EnhancedResult :=
    { id := frag.id
      content := frag.content
      similarity := frag.similarity.getD 0
      metadata := frag.metadata
      documentTitle := dt0
      documentFilename := df0 }
  match frag.metadata.documentId with
  | none => base
  | some docId =>
    match lookup docId with
    | none => base
    | some doc =>
      match doc.metadata with
      | none => base
      | some m =>
        { base with
          documentTitle := jsOrString m.title (jsOrString m.filename dt0)
          documentFilename := jsOrString m.filename df0 }

/-- Embeds src/routes.ts lines 792-829: every search result is enriched; a
failure to fetch one parent document never drops a result or fails the
search. -/
def enhanceResults (lookup : String → Option DocumentMemory)
    (frags : List SearchFragment) : List EnhancedResult :=
  frags.map (enhanceResult lookup)

/-! ## Concrete sample inputs (used by the witness theorems) -/

/-- An empty store. -/
def emptyState : KnowledgeState := { documents := [], fragments := [] }

/-- A sample ingestion request. -/
def sampleOpts : AddKnowledgeOptions :=
  { agentId := "agent-1"
    worldId := "agent-1"
    roomId := "agent-1"
    entityId := "agent-1"
    clientDocumentId := "doc-1"
    contentType := "text/plain"
    originalFilename := "a.txt"
    content := "hello world" }

/-- A sample chunker splitting the text into two chunks. -/
def sampleChunk : String → List String := fun c => [c, c]

/-- A store holding one unrelated document and fragment. -/
def sampleState : KnowledgeState :=
  { documents := [{ id := "doc-other"
                    agentId := "agent-1"
                    worldId := "agent-1"
                    roomId := "agent-1"
                    entityId := "agent-1"
                    originalFilename := "b.txt"
                    contentType := "text/plain"
                    content := "other"
                    fileSize := 5 }]
    fragments := [{ id := "doc-other-0"
                    documentId := "doc-other"
                    agentId := "agent-1"
                    worldId := "agent-1"
                    roomId := "agent-1"
                    entityId := "agent-1"
                    content := "other"
                    position := 0 }] }

/-- A sample memory row carrying an embedding. -/
def sampleMemory : MemoryRow :=
  { id := "mem-1"
    entityId := "agent-1"
    roomId := "agent-1"
    content := "hello"
    metadata := [("type", "document")]
    embedding := some [1, 0]
    createdAt := 5 }

/-- A sample search-result fragment whose parent document id is `doc-9`. -/
def sampleFragment : SearchFragment :=
  { id := "frag-1"
    content := "chunk text"
    similarity := some (9/10)
    metadata := { documentId := some ("doc-9"), rest := [] } }

/-! ## Helper lemmas about `addKnowledge` -/

theorem addKnowledge_storedId (chunk : String → List String) (s : KnowledgeState)
    (opts : AddKnowledgeOptions) :
    (addKnowledge chunk s opts).2.storedDocumentMemoryId = opts.clientDocumentId := by
  unfold addKnowledge
  by_cases h : s.documents.any
      (fun d => d.id = opts.clientDocumentId && d.agentId = opts.agentId) <;>
    simp [h]

theorem addKnowledge_noop_of_exists (chunk : String → List String) (s : KnowledgeState)
    (opts : AddKnowledgeOptions)
    (h : s.documents.any
      (fun d => d.id = opts.clientDocumentId && d.agentId = opts.agentId) = true) :
    addKnowledge chunk s opts =
      (s, { clientDocumentId := opts.clientDocumentId
            storedDocumentMemoryId := opts.clientDocumentId
            fragmentCount := countByDocument s opts.clientDocumentId }) := by
  unfold addKnowledge
  simp [h]

theorem addKnowledge_has_doc (chunk : String → List String) (s : KnowledgeState)
    (opts : AddKnowledgeOptions) :
    (addKnowledge chunk s opts).1.documents.any
      (fun d => d.id = opts.clientDocumentId && d.agentId = opts.agentId) = true := by
  unfold addKnowledge
  by_cases h : s.documents.any
      (fun d => d.id = opts.clientDocumentId && d.agentId = opts.agentId)
  · simp [h]
  · simp [h, List.any_append]

theorem addKnowledge_again (chunk₁ chunk₂ : String → List String) (s : KnowledgeState)
    (o₁ o₂ : AddKnowledgeOptions)
    (hid : o₂.clientDocumentId = o₁.clientDocumentId) (hag : o₂.agentId = o₁.agentId) :
    addKnowledge chunk₂ (addKnowledge chunk₁ s o₁).1 o₂ =
      ((addKnowledge chunk₁ s o₁).1,
       { clientDocumentId := o₂.clientDocumentId
         storedDocumentMemoryId := o₂.clientDocumentId
         fragmentCount :=
           countByDocument (addKnowledge chunk₁ s o₁).1 o₂.clientDocumentId }) := by
  apply addKnowledge_noop_of_exists
  rw [hid, hag]
  exact addKnowledge_has_doc chunk₁ s o₁

/-! ## Claims -/

/-- C1.  Calling `addKnowledge` a second time with the same
`clientDocumentId` and the same content (the whole options record, in
particular the same agent) returns the same stored document identity as
the first call and leaves the store unchanged: no new Document or
Fragment rows are written by the second call. -/
theorem addKnowledge_idempotent (chunk : String → List String) (s : KnowledgeState)
    (opts : AddKnowledgeOptions) :
    (addKnowledge chunk (addKnowledge chunk s opts).1 opts).1 =
      (addKnowledge chunk s opts).1 ∧
    (addKnowledge chunk (addKnowledge chunk s opts).1 opts).2.storedDocumentMemoryId =
      (addKnowledge chunk s opts).2.storedDocumentMemoryId := by
  rw [addKnowledge_again chunk chunk s opts opts rfl rfl]
  exact ⟨rfl, by rw [addKnowledge_storedId]⟩

/-- Clamping behaviour of the search route, packaged so that the
hypothesis-discharging witness can state it at one concrete input
(`q` and `n` are the in-range pass-through samples). -/
def ClampSpec (q : Rat) (n : Int) : Prop :=
  matchThreshold none = 1/2 ∧
  searchLimit none = 20 ∧
  (∀ r : Rat, 0 ≤ matchThreshold (some r) ∧ matchThreshold (some r) ≤ 1) ∧
  (∀ m : Int, 1 ≤ searchLimit (some m) ∧ searchLimit (some m) ≤ 100) ∧
  matchThreshold (some q) = q ∧
  searchLimit (some n) = n ∧
  matchThreshold (some 5) = 1 ∧
  matchThreshold (some (-1)) = 0 ∧
  searchLimit (some 1000) = 100 ∧
  searchLimit (some 0) = 1

/-- C2.  The effective similarity threshold is the requested value
clamped into `[0,1]` (`0.5` when absent or not a number) and the
effective limit is the requested value clamped into `[1,100]` (`20`
when absent or not a number); in-range values pass through unchanged,
out-of-range values are clamped (threshold `5` behaves as `1`,
threshold `-1` as `0`, limit `1000` as `100`, limit `0` as `1`). -/
theorem searchClamp_spec (q : Rat) (n : Int) (hq0 : 0 ≤ q) (hq1 : q ≤ 1)
    (hn1 : 1 ≤ n) (hn2 : n ≤ 100) : ClampSpec q n := by
  refine ⟨by norm_num [matchThreshold], by norm_num [searchLimit], ?_, ?_, ?_, ?_,
    by norm_num [matchThreshold], by norm_num [matchThreshold],
    by norm_num [searchLimit], by norm_num [searchLimit]⟩
  · intro r
    unfold matchThreshold
    constructor
    · exact le_max_left 0 _
    · exact max_le (by norm_num) (min_le_left 1 _)
  · intro m
    unfold searchLimit
    constructor
    · exact le_max_left 1 _
    · exact max_le (by norm_num) (min_le_left 100 _)
  · unfold matchThreshold
    simp [min_eq_right hq1, max_eq_right hq0]
  · unfold searchLimit
    simp [min_eq_right hn2, max_eq_right hn1]

/-- Witness for C2: the hypotheses hold at `q = 1/2`, `n = 50`. -/
theorem searchClamp_spec_witness :
    ((0 : Rat) ≤ 1/2 ∧ (1/2 : Rat) ≤ 1 ∧ (1 : Int) ≤ 50 ∧ (50 : Int) ≤ 100) ∧
      ClampSpec (1/2) 50 :=
  ⟨by norm_num,
   searchClamp_spec (1/2) 50 (by norm_num) (by norm_num) (by norm_num) (by norm_num)⟩

/-- C10.  A search request whose query text is absent, empty or
whitespace-only is rejected with `400 INVALID_QUERY`, and the handler
never reaches the embedding-model call or the memory search for such a
request. -/
theorem searchHandler_rejects_blank (req : SearchRequest)
    (h : blankQuery req.q = true) :
    searchKnowledgeHandler req = .reject 400 ("INVALID_QUERY") ∧
    invokesEmbedding (searchKnowledgeHandler req) = false := by
  have hrej : searchKnowledgeHandler req = .reject 400 ("INVALID_QUERY") := by
    unfold searchKnowledgeHandler
    cases hq : req.q with
    | none => rfl
    | some s =>
      have hs : s.data.all (fun c => c.isWhitespace) = true := by
        simpa [blankQuery, hq] using h
      simp [hs]
  exact ⟨hrej, by rw [hrej]; rfl⟩

/-- Witness for C10: a whitespace-only query. -/
theorem searchHandler_rejects_blank_witness :
    blankQuery (some ("   ")) = true ∧
    (searchKnowledgeHandler { q := some ("   "), threshold := some 2, lim := some 5 } =
        .reject 400 ("INVALID_QUERY") ∧
      invokesEmbedding
        (searchKnowledgeHandler { q := some ("   "), threshold := some 2, lim := some 5 }) =
        false) :=
  ⟨by decide, searchHandler_rejects_blank _ (by decide)⟩

/-! ## Helper lemmas about `mkFragments` -/

theorem mkFragments_documentId (opts : AddKnowledgeOptions) (l : List String) (p : Nat) :
    ∀ f ∈ mkFragments opts l p, f.documentId = opts.clientDocumentId := by
  induction l generalizing p with
  | nil => simp [mkFragments]
  | cons c rest ih =>
    intro f hf
    rw [mkFragments] at hf
    rcases List.mem_cons.mp hf with h | h
    · subst h; rfl
    · exact ih (p + 1) f h

theorem mkFragments_positions (opts : AddKnowledgeOptions) (l : List String) (p : Nat) :
    (mkFragments opts l p).map (fun f => f.position) = List.range' p l.length := by
  induction l generalizing p with
  | nil => simp [mkFragments]
  | cons c rest ih =>
    rw [mkFragments]
    simp only [List.map_cons, List.length_cons, List.range'_succ]
    rw [ih (p + 1)]

theorem mkFragments_pos_le (opts : AddKnowledgeOptions) (l : List String) (p : Nat) :
    ∀ f ∈ mkFragments opts l p, p ≤ f.position := by
  induction l generalizing p with
  | nil => simp [mkFragments]
  | cons c rest ih =>
    intro f hf
    rw [mkFragments] at hf
    rcases List.mem_cons.mp hf with h | h
    · subst h; exact Nat.le_refl p
    · exact Nat.le_trans (Nat.le_succ p) (ih (p + 1) f h)

theorem mkFragments_sorted (opts : AddKnowledgeOptions) (l : List String) (p : Nat) :
    List.Sorted (fun a b => a.position ≤ b.position) (mkFragments opts l p) := by
  induction l generalizing p with
  | nil => simp [mkFragments]
  | cons c rest ih =>
    rw [mkFragments, List.sorted_cons]
    refine ⟨fun b hb => ?_, ih (p + 1)⟩
    exact Nat.le_trans (Nat.le_succ p) (mkFragments_pos_le opts rest (p + 1) b hb)

/-- C3.  Ingesting a fresh document (its identity not yet present, and
no stray fragment rows carrying its id) and then fetching its fragments
with `findByDocument` returns them ordered by `position` ascending with
strictly increasing, contiguous positions starting at `0`: the listed
positions are exactly `0, 1, ..., N-1` for `N` chunks. -/
theorem findByDocument_positions_contiguous (chunk : String → List String)
    (s : KnowledgeState) (opts : AddKnowledgeOptions)
    (hdoc : s.documents.any
      (fun d => d.id = opts.clientDocumentId && d.agentId = opts.agentId) = false)
    (hfrag : ∀ f ∈ s.fragments, f.documentId ≠ opts.clientDocumentId) :
    (findByDocument (addKnowledge chunk s opts).1 opts.clientDocumentId).map
      (fun f => f.position) = List.range (chunk opts.content).length := by
  unfold addKnowledge
  rw [hdoc]
  simp only [Bool.false_eq_true, if_false]
  unfold findByDocument
  rw [List.filter_append]
  have h1 : s.fragments.filter
      (fun f => f.documentId = opts.clientDocumentId) = [] := by
    rw [List.filter_eq_nil_iff]
    intro f hf
    simpa using hfrag f hf
  have h2 : (mkFragments opts (chunk opts.content) 0).filter
      (fun f => f.documentId = opts.clientDocumentId) =
      mkFragments opts (chunk opts.content) 0 := by
    rw [List.filter_eq_self]
    intro f hf
    simpa using mkFragments_documentId opts (chunk opts.content) 0 f hf
  rw [h1, h2, List.nil_append,
    List.Sorted.insertionSort_eq (mkFragments_sorted opts (chunk opts.content) 0),
    mkFragments_positions, List.range_eq_range']

/-- Witness for C3: ingesting into the store that holds one unrelated
document, with a chunker producing two chunks, yields positions
`[0, 1]`. -/
theorem findByDocument_positions_contiguous_witness :
    (sampleState.documents.any
      (fun d => d.id = sampleOpts.clientDocumentId && d.agentId = sampleOpts.agentId)
        = false) ∧
    (∀ f ∈ sampleState.fragments, f.documentId ≠ sampleOpts.clientDocumentId) ∧
    (findByDocument (addKnowledge sampleChunk sampleState sampleOpts).1
        sampleOpts.clientDocumentId).map (fun f => f.position) =
      List.range (sampleChunk sampleOpts.content).length :=
  ⟨by decide, by decide,
   findByDocument_positions_contiguous sampleChunk sampleState sampleOpts
     (by decide) (by decide)⟩

/-- C4.  Deleting a document id that is not present in the store (and
has no fragment rows) succeeds - the success flag is `true`, no error -
and leaves the store unchanged. -/
theorem deleteDocument_nonexistent_noop (s : KnowledgeState) (docId : String)
    (hdoc : ∀ d ∈ s.documents, d.id ≠ docId)
    (hfrag : ∀ f ∈ s.fragments, f.documentId ≠ docId) :
    deleteDocument s docId = (s, true) := by
  have h1 : List.filter (fun d => !decide (d.id = docId)) s.documents = s.documents := by
    rw [List.filter_eq_self]
    intro d hd
    simpa using hdoc d hd
  have h2 : List.filter (fun f => !decide (f.documentId = docId)) s.fragments =
      s.fragments := by
    rw [List.filter_eq_self]
    intro f hf
    simpa using hfrag f hf
  simp [deleteDocument, h1, h2]

/-- Witness for C4: deleting the never-created id `doc-missing` from the
one-document store is a no-op success. -/
theorem deleteDocument_nonexistent_noop_witness :
    (∀ d ∈ sampleState.documents, d.id ≠ "doc-missing") ∧
    (∀ f ∈ sampleState.fragments, f.documentId ≠ "doc-missing") ∧
    deleteDocument sampleState ("doc-missing") = (sampleState, true) :=
  ⟨by decide, by decide,
   deleteDocument_nonexistent_noop sampleState ("doc-missing") (by decide) (by decide)⟩

/-! ## Helper lemmas about `normalizeS3Url` -/

theorem takeWhile_append_stop (base rest : List Char) (h : ∀ c ∈ base, c ≠ '?') :
    (base ++ '?' :: rest).takeWhile (fun c => c ≠ '?') = base := by
  induction base with
  | nil => simp [List.takeWhile_cons]
  | cons a as ih =>
    have ha : a ≠ '?' := h a (List.mem_cons_self a as)
    simp only [List.cons_append, List.takeWhile_cons, decide_eq_true_eq]
    rw [if_pos ha, ih (fun c hc => h c (List.mem_cons_of_mem a hc))]

theorem normalizeS3Url_strips_query (base q : String) (h : ∀ c ∈ base.data, c ≠ '?') :
    normalizeS3Url (base ++ "?" ++ q) = base := by
  unfold normalizeS3Url
  have hdata : (base ++ "?" ++ q).data = base.data ++ '?' :: q.data := by
    simp [String.data_append]
  rw [hdata, takeWhile_append_stop base.data q.data h]

/-- C5.  Two ingestion URLs that differ only in their query string
normalize to the same identity, and ingesting the second URL after the
first returns the first ingestion's stored document id unchanged and
writes nothing new to the store (regardless of what is fetched for the
second URL). -/
theorem urlIngest_query_dedup (chunk : String → List String) (mkId : String → String)
    (agentId : String) (s : KnowledgeState) (base q₁ q₂ ct₁ fn₁ c₁ ct₂ fn₂ c₂ : String)
    (h : ∀ c ∈ base.data, c ≠ '?') :
    urlKnowledgeId mkId (base ++ "?" ++ q₁) = urlKnowledgeId mkId (base ++ "?" ++ q₂) ∧
    (urlIngest chunk mkId agentId
        (urlIngest chunk mkId agentId s (base ++ "?" ++ q₁) ct₁ fn₁ c₁).1
        (base ++ "?" ++ q₂) ct₂ fn₂ c₂).2.storedDocumentMemoryId =
      (urlIngest chunk mkId agentId s
        (base ++ "?" ++ q₁) ct₁ fn₁ c₁).2.storedDocumentMemoryId ∧
    (urlIngest chunk mkId agentId
        (urlIngest chunk mkId agentId s (base ++ "?" ++ q₁) ct₁ fn₁ c₁).1
        (base ++ "?" ++ q₂) ct₂ fn₂ c₂).1 =
      (urlIngest chunk mkId agentId s (base ++ "?" ++ q₁) ct₁ fn₁ c₁).1 := by
  have hid : urlKnowledgeId mkId (base ++ "?" ++ q₁) =
      urlKnowledgeId mkId (base ++ "?" ++ q₂) := by
    unfold urlKnowledgeId
    rw [normalizeS3Url_strips_query base q₁ h, normalizeS3Url_strips_query base q₂ h]
  have hsecond := addKnowledge_again chunk chunk s
    { agentId := agentId, worldId := agentId, roomId := agentId, entityId := agentId
      clientDocumentId := urlKnowledgeId mkId (base ++ "?" ++ q₁)
      contentType := ct₁, originalFilename := fn₁, content := c₁ }
    { agentId := agentId, worldId := agentId, roomId := agentId, entityId := agentId
      clientDocumentId := urlKnowledgeId mkId (base ++ "?" ++ q₂)
      contentType := ct₂, originalFilename := fn₂, content := c₂ }
    hid.symm rfl
  refine ⟨hid, ?_, ?_⟩
  · unfold urlIngest
    rw [hsecond, addKnowledge_storedId]
    exact hid.symm
  · unfold urlIngest
    rw [hsecond]

/-- Witness for C5: the two sample URLs of the spec's Scenario B. -/
theorem urlIngest_query_dedup_witness :
    (∀ c ∈ ("https://example.com/doc.pdf").data, c ≠ '?') ∧
    (urlKnowledgeId (fun x => x) ("https://example.com/doc.pdf" ++ "?" ++ "utm=1") =
      urlKnowledgeId (fun x => x) ("https://example.com/doc.pdf" ++ "?" ++ "utm=2") ∧
    (urlIngest sampleChunk (fun x => x) ("agent-1")
        (urlIngest sampleChunk (fun x => x) ("agent-1") emptyState
          ("https://example.com/doc.pdf" ++ "?" ++ "utm=1")
          ("application/pdf") ("doc.pdf") ("content-a")).1
        ("https://example.com/doc.pdf" ++ "?" ++ "utm=2")
        ("application/pdf") ("doc.pdf") ("content-a")).2.storedDocumentMemoryId =
      (urlIngest sampleChunk (fun x => x) ("agent-1") emptyState
        ("https://example.com/doc.pdf" ++ "?" ++ "utm=1")
        ("application/pdf") ("doc.pdf") ("content-a")).2.storedDocumentMemoryId ∧
    (urlIngest sampleChunk (fun x => x) ("agent-1")
        (urlIngest sampleChunk (fun x => x) ("agent-1") emptyState
          ("https://example.com/doc.pdf" ++ "?" ++ "utm=1")
          ("application/pdf") ("doc.pdf") ("content-a")).1
        ("https://example.com/doc.pdf" ++ "?" ++ "utm=2")
        ("application/pdf") ("doc.pdf") ("content-a")).1 =
      (urlIngest sampleChunk (fun x => x) ("agent-1") emptyState
        ("https://example.com/doc.pdf" ++ "?" ++ "utm=1")
        ("application/pdf") ("doc.pdf") ("content-a")).1) :=
  ⟨by decide,
   urlIngest_query_dedup sampleChunk (fun x => x) ("agent-1") emptyState
     ("https://example.com/doc.pdf") ("utm=1") ("utm=2")
     ("application/pdf") ("doc.pdf") ("content-a")
     ("application/pdf") ("doc.pdf") ("content-a") (by decide)⟩

/-- C6 counterexample.  When no client document id is supplied, the
file-upload id (src/routes.ts line 154) is derived from a seed that
embeds `Date.now()`: re-ingesting the same file `doc.pdf` at two
different timestamps derives two different identities (`mkId` is
instantiated with the identity function, exposing the seeds the
deterministic uuid derivation is applied to), refuting "re-ingesting
the same source in separate attempts always yields the same id". -/
theorem fileUpload_id_not_stable :
    ¬ (fileUploadKnowledgeId (fun x => x) none none ("doc.pdf") 0 =
       fileUploadKnowledgeId (fun x => x) none none ("doc.pdf") 1) := by
  decide

/-- C6 as amended.  When the client does not supply a document id,
URL-based ingestion derives the identity from the normalized URL alone,
so it is stable across re-ingestion attempts; but file-upload ingestion
(src/routes.ts line 154) and action-based ingestion (src/actions.ts
lines 234, 243) derive the id from a seed embedding `Date.now()`, so
attempts at different timestamps use different seeds and the identity
is not stable for those paths. -/
theorem derivedId_timestamp_dependence (mkId : String → String) (u₁ u₂ : String)
    (h : normalizeS3Url u₁ = normalizeS3Url u₂) :
    urlKnowledgeId mkId u₁ = urlKnowledgeId mkId u₂ ∧
    (∀ f n, fileUploadKnowledgeId mkId none none f n = mkId (fileUploadSeed f n)) ∧
    fileUploadSeed ("doc.pdf") 0 ≠ fileUploadSeed ("doc.pdf") 1 ∧
    actionFileSeed ("agent-1") ("doc.pdf") 0 ≠ actionFileSeed ("agent-1") ("doc.pdf") 1 := by
  refine ⟨?_, fun f n => rfl, by decide, by decide⟩
  unfold urlKnowledgeId
  rw [h]

/-- Witness for the amended C6: two URLs with distinct query strings
share their normalized form. -/
theorem derivedId_timestamp_dependence_witness :
    normalizeS3Url ("https://a.io/x.pdf?u=1") = normalizeS3Url ("https://a.io/x.pdf?u=2") ∧
    (urlKnowledgeId (fun x => x) ("https://a.io/x.pdf?u=1") =
        urlKnowledgeId (fun x => x) ("https://a.io/x.pdf?u=2") ∧
      (∀ f n, fileUploadKnowledgeId (fun x => x) none none f n =
        (fun x => x) (fileUploadSeed f n)) ∧
      fileUploadSeed ("doc.pdf") 0 ≠ fileUploadSeed ("doc.pdf") 1 ∧
      actionFileSeed ("agent-1") ("doc.pdf") 0 ≠ actionFileSeed ("agent-1") ("doc.pdf") 1) :=
  ⟨by decide,
   derivedId_timestamp_dependence (fun x => x)
     ("https://a.io/x.pdf?u=1") ("https://a.io/x.pdf?u=2") (by decide)⟩

/-- C7.  Search-result enrichment never fails the search: every result
is returned (the enriched list has the same length), and a result whose
parent document is missing or cannot be fetched (`lookup` yields
`none`) is returned with the placeholder title `Unknown Document` and
placeholder filename `unknown`, its own fields unchanged. -/
theorem enhanceResults_missing_parent_placeholder
    (lookup : String → Option DocumentMemory) (frags : List SearchFragment)
    (frag : SearchFragment) (d : String)
    (hd : frag.metadata.documentId = some d) (hm : lookup d = none) :
    (enhanceResults lookup frags).length = frags.length ∧
    (enhanceResult lookup frag).documentTitle = "Unknown Document" ∧
    (enhanceResult lookup frag).documentFilename = "unknown" ∧
    (enhanceResult lookup frag).id = frag.id ∧
    (enhanceResult lookup frag).content = frag.content ∧
    (enhanceResult lookup frag).metadata = frag.metadata := by
  have hbase : enhanceResult lookup frag =
      { id := frag.id
        content := frag.content
        similarity := frag.similarity.getD 0
        metadata := frag.metadata
        documentTitle := "Unknown Document"
        documentFilename := "unknown" } := by
    unfold enhanceResult
    rw [hd]
    simp [hm]
  refine ⟨by simp [enhanceResults], ?_, ?_, ?_, ?_, ?_⟩ <;> rw [hbase]

/-- Witness for C7: a lookup that finds no parent document. -/
theorem enhanceResults_missing_parent_placeholder_witness :
    sampleFragment.metadata.documentId = some ("doc-9") ∧
    ((fun _ : String => (none : Option DocumentMemory)) ("doc-9") = none) ∧
    ((enhanceResults (fun _ => none) [sampleFragment]).length = [sampleFragment].length ∧
      (enhanceResult (fun _ => none) sampleFragment).documentTitle = "Unknown Document" ∧
      (enhanceResult (fun _ => none) sampleFragment).documentFilename = "unknown" ∧
      (enhanceResult (fun _ => none) sampleFragment).id = sampleFragment.id ∧
      (enhanceResult (fun _ => none) sampleFragment).content = sampleFragment.content ∧
      (enhanceResult (fun _ => none) sampleFragment).metadata = sampleFragment.metadata) :=
  ⟨rfl, rfl,
   enhanceResults_missing_parent_placeholder (fun _ => none) [sampleFragment]
     sampleFragment ("doc-9") rfl rfl⟩

/-- C8 counterexample.  `createBatch` on the empty input still issues
its insert statement - the repository's own unit test
(src/unnamed/part_000 lines 130-135) asserts that `db.insert` is called
with the fragments table for the empty batch - so the claim that no
insert is issued (no database round trip) fails: the insert count at
the concrete input (empty store, empty batch) is `1`, not `0`. -/
theorem createBatch_empty_issues_insert :
    ¬ (createBatchInsertCount emptyState [] = 0) := by
  decide

/-- C8 as amended.  `createBatch` applied to an empty input sequence
returns an empty output sequence and leaves the store unchanged, but
the insert statement is still issued (exactly one database call). -/
theorem createBatch_empty (s : KnowledgeState) :
    createBatch s [] = (s, [], 1) := by
  simp [createBatch]

/-- C9.  The get-document-by-id handler always strips the embedding
from the returned document and the list-documents handler strips it
from every returned document unless `includeEmbedding` is exactly the
string `true`; all other fields are unchanged. -/
theorem retrieval_strips_embedding (inc : Option String) (ms : List MemoryRow)
    (m : MemoryRow) (h : inc ≠ some ("true")) :
    (cleanDocument m).embedding = none ∧
    (cleanDocument m).id = m.id ∧
    (cleanDocument m).content = m.content ∧
    (cleanDocument m).metadata = m.metadata ∧
    (cleanDocument m).entityId = m.entityId ∧
    (cleanDocument m).roomId = m.roomId ∧
    (cleanDocument m).createdAt = m.createdAt ∧
    cleanMemories inc ms = ms.map stripEmbedding ∧
    (∀ x ∈ cleanMemories inc ms, x.embedding = none) ∧
    (cleanMemories inc ms).map (fun x => x.id) = ms.map (fun x => x.id) ∧
    cleanMemories (some ("true")) ms = ms := by
  have hclean : cleanMemories inc ms = ms.map stripEmbedding := by
    simp [cleanMemories, h]
  refine ⟨rfl, rfl, rfl, rfl, rfl, rfl, rfl, hclean, ?_, ?_, by simp [cleanMemories]⟩
  · intro x hx
    rw [hclean] at hx
    rcases List.mem_map.mp hx with ⟨y, _, hy⟩
    rw [← hy]
    rfl
  · rw [hclean, List.map_map]
    rfl

/-- Witness for C9: the absent `includeEmbedding` parameter. -/
theorem retrieval_strips_embedding_witness :
    ((none : Option String) ≠ some ("true")) ∧
    ((cleanDocument sampleMemory).embedding = none ∧
      (cleanDocument sampleMemory).id = sampleMemory.id ∧
      (cleanDocument sampleMemory).content = sampleMemory.content ∧
      (cleanDocument sampleMemory).metadata = sampleMemory.metadata ∧
      (cleanDocument sampleMemory).entityId = sampleMemory.entityId ∧
      (cleanDocument sampleMemory).roomId = sampleMemory.roomId ∧
      (cleanDocument sampleMemory).createdAt = sampleMemory.createdAt ∧
      cleanMemories none [sampleMemory] = [sampleMemory].map stripEmbedding ∧
      (∀ x ∈ cleanMemories none [sampleMemory], x.embedding = none) ∧
      (cleanMemories none [sampleMemory]).map (fun x => x.id) =
        [sampleMemory].map (fun x => x.id) ∧
      cleanMemories (some ("true")) [sampleMemory] = [sampleMemory]) :=
  ⟨by decide, retrieval_strips_embedding none [sampleMemory] sampleMemory (by decide)⟩

end KnowledgePlugin
